import Mathlib

/-!
# Scroll-driven product page script (`script.js`)

A shallow embedding of the page script: geometry utilities, navigation state,
reveal animations, section pinning and the animation-frame coordinator.

Pixel quantities are exact rationals.  An element is described by the distance
of its top edge from the top of the document and by its height, so that its
bounding rectangle relative to the viewport is obtained by subtracting the
current scroll offset.  The markup queried at load time (`.nav`, `.nav-links`,
`.nav-toggle`) is taken to be present.
-/

namespace ProductPage

/-! ## Configuration and module state -/

/-- The `config` object. -/
structure Config where
  navScrollThreshold : ℚ
  fadeInOffset : ℚ
  scrollSmoothness : ℚ
  reducedMotion : Bool

/-- The `config` literal; `reducedMotion` is the result of the media query
`(prefers-reduced-motion: reduce)` at load time. -/
def config (reducedMotion : Bool) : Config :=
  { navScrollThreshold := 50
    fadeInOffset := 100
    scrollSmoothness := 1 / 10
    reducedMotion := reducedMotion }

/-- The `state` object. -/
structure State where
  scrollY : ℚ
  lastScrollY : ℚ
  ticking : Bool
  navOpen : Bool

/-- The `state` literal. -/
def state : State :=
  { scrollY := 0, lastScrollY := 0, ticking := false, navOpen := false }

/-! ## Host environment -/

/-- The parts of `window` and `document.documentElement` the script reads. -/
structure Window where
  scrollY : ℚ
  innerHeight : ℚ
  innerWidth : ℚ
  clientHeight : ℚ

/-- `window.pageYOffset` is an alias of `window.scrollY`. -/
def Window.pageYOffset (w : Window) : ℚ := w.scrollY

/-- JavaScript `a || b` on numbers: `a` when it is truthy (non-zero), else `b`. -/
def jsOr (a b : ℚ) : ℚ := if a ≠ 0 then a else b

/-- A bounding rectangle; `bottom` is `top + height`. -/
structure DOMRect where
  top : ℚ
  height : ℚ

/-- The `bottom` edge of a rectangle. -/
def DOMRect.bottom (r : DOMRect) : ℚ := r.top + r.height

/-- A tracked element: position in the document, height and class list. -/
structure Element where
  docTop : ℚ
  height : ℚ
  classList : List String

/-- `element.getBoundingClientRect()` for a box at `docTop` of height `height`. -/
def getBoundingClientRect (w : Window) (docTop height : ℚ) : DOMRect :=
  { top := docTop - w.scrollY, height := height }

/-- `classList.contains(c)`. -/
def classListContains (cl : List String) (c : String) : Bool := decide (c ∈ cl)

/-- `classList.add(c)`. -/
def classListAdd (cl : List String) (c : String) : List String :=
  if c ∈ cl then cl else cl ++ [c]

/-- `classList.remove(c)`. -/
def classListRemove (cl : List String) (c : String) : List String :=
  cl.filter (fun d => d ≠ c)

/-- `classList.toggle(c)`. -/
def classListToggle (cl : List String) (c : String) : List String :=
  if c ∈ cl then classListRemove cl c else cl ++ [c]

/-! ## Utility functions -/

/-- `isInViewport(element, offset = 0)`; `none` is an omitted argument. -/
def isInViewport (w : Window) (element : Element) (offset : Option ℚ) : Bool :=
  let offset := offset.getD 0
  let rect := getBoundingClientRect w element.docTop element.height
  decide (rect.top ≥ -offset) &&
    decide (rect.top ≤ jsOr w.innerHeight w.clientHeight + offset)

/-- `getScrollProgress(element)`. -/
def getScrollProgress (w : Window) (element : Element) : ℚ :=
  let rect := getBoundingClientRect w element.docTop element.height
  let windowHeight := w.innerHeight
  let elementTop := rect.top
  let elementHeight := rect.height
  if elementTop > windowHeight then 0
  else if elementTop + elementHeight < 0 then 1
  else
    let scrolled := windowHeight - elementTop
    let total := windowHeight + elementHeight
    max 0 (min 1 (scrolled / total))

/-- `lerp(start, end, factor)`. -/
def lerp (start stop factor : ℚ) : ℚ := start + (stop - start) * factor

/-! ## Page model -/

/-- The inline `style.transform` written by the script: the empty string, or
the template string with the offset in pixels. -/
inductive Transform where
  | empty
  | translateY (px : ℚ)
  deriving DecidableEq

/-- The `.scroll-section-inner` child of a pinnable section. -/
structure InnerContent where
  transform : Transform

/-- A `[data-pin="true"]` section: geometry, inline `style.position` and
`style.top`, and the result of `querySelector(".scroll-section-inner")`. -/
structure Section where
  docTop : ℚ
  height : ℚ
  position : String
  top : String
  innerContent : Option InnerContent

/-- Everything the script reads or writes. -/
structure Page where
  reducedMotion : Bool
  state : State
  window : Window
  nav : List String
  navLinks : List String
  ariaExpanded : Option String
  bodyOverflow : String
  scrollSections : List Section
  fadeElements : List Element
  transformElements : List Element
  visualItems : List Element
  darkSection : Option Element

/-- `Boolean.prototype.toString`. -/
def boolToString (b : Bool) : String := if b then "true" else "false"

/-- `element.classList.add(c)` on an element. -/
def Element.addClass (e : Element) (c : String) : Element :=
  { e with classList := classListAdd e.classList c }

/-! ## Navigation -/

/-- `handleNavScroll()`. -/
def handleNavScroll (p : Page) : Page :=
  let scrollY := jsOr p.window.scrollY p.window.pageYOffset
  if scrollY > (config p.reducedMotion).navScrollThreshold then
    { p with nav := classListAdd p.nav "scrolled" }
  else
    { p with nav := classListRemove p.nav "scrolled" }

/-- `toggleNav()`. -/
def toggleNav (p : Page) : Page :=
  let navOpen := !p.state.navOpen
  { p with
    state := { p.state with navOpen := navOpen }
    navLinks := classListToggle p.navLinks "active"
    ariaExpanded := some (boolToString navOpen)
    bodyOverflow := if navOpen then "hidden" else "" }

/-! ## Scroll-driven animations -/

/-- The body of the `forEach` in `handleFadeAnimations` and
`handleTransformAnimations`. -/
def revealElement (p : Page) (element : Element) : Element :=
  if isInViewport p.window element (some (config p.reducedMotion).fadeInOffset) then
    element.addClass "visible"
  else element

/-- `handleFadeAnimations()`. -/
def handleFadeAnimations (p : Page) : Page :=
  if (config p.reducedMotion).reducedMotion then p
  else { p with fadeElements := p.fadeElements.map (revealElement p) }

/-- `handleTransformAnimations()`. -/
def handleTransformAnimations (p : Page) : Page :=
  if (config p.reducedMotion).reducedMotion then p
  else { p with transformElements := p.transformElements.map (revealElement p) }

/-- The pin test `rect.top <= 0 && rect.bottom > windowHeight`. -/
def isPinned (w : Window) (s : Section) : Bool :=
  let rect := getBoundingClientRect w s.docTop s.height
  let windowHeight := w.innerHeight
  decide (rect.top ≤ 0) && decide (rect.bottom > windowHeight)

/-- The local `scrollRange` of `handleScrollPinning`. -/
def scrollRange (w : Window) (s : Section) : ℚ :=
  let rect := getBoundingClientRect w s.docTop s.height
  let windowHeight := w.innerHeight
  let sectionHeight := rect.height
  sectionHeight - windowHeight

/-- The local `scrolledInSection` of `handleScrollPinning`. -/
def scrolledInSection (w : Window) (s : Section) : ℚ :=
  let rect := getBoundingClientRect w s.docTop s.height
  let windowHeight := w.innerHeight
  let sectionTop := rect.top + w.scrollY
  let currentScroll := w.scrollY
  currentScroll - (sectionTop - windowHeight)

/-- The local `progress` of `handleScrollPinning`. -/
def pinProgress (w : Window) (s : Section) : ℚ :=
  max 0 (min 1 (scrolledInSection w s / scrollRange w s))

/-- The local `parallaxOffset` of `handleScrollPinning`. -/
def parallaxOffset (w : Window) (s : Section) : ℚ := pinProgress w s * 30

/-- The body of the `forEach` in `handleScrollPinning`. -/
def pinSection (w : Window) (s : Section) : Section :=
  if isPinned w s then
    { s with
      position := "sticky"
      top := "0"
      innerContent := s.innerContent.map fun innerContent =>
        if scrollRange w s > 0 then
          { innerContent with transform := Transform.translateY (parallaxOffset w s) }
        else innerContent }
  else
    { s with
      position := "relative"
      innerContent := s.innerContent.map fun innerContent =>
        { innerContent with transform := Transform.empty } }

/-- `handleScrollPinning()`. -/
def handleScrollPinning (p : Page) : Page :=
  if (config p.reducedMotion).reducedMotion then p
  else { p with scrollSections := p.scrollSections.map (pinSection p.window) }

/-- `handleVisualItems()`. -/
def handleVisualItems (p : Page) : Page :=
  if (config p.reducedMotion).reducedMotion then
    { p with visualItems := p.visualItems.map fun item => item.addClass "visible" }
  else
    match p.darkSection with
    | none => p
    | some darkSection =>
      if isInViewport p.window darkSection (some (config p.reducedMotion).fadeInOffset) then
        { p with visualItems := p.visualItems.map fun item => item.addClass "visible" }
      else p

/-! ## Frame coordinator -/

/-- The page together with the host's animation-frame queue.  The only callback
the script ever registers is the closure created in `onScroll`, so the queue is
the number of registered callbacks that have not run yet.  `rafRequests` and
`updatePasses` count the calls of `requestAnimationFrame` and the runs of the
callback. -/
structure Runtime where
  page : Page
  rafQueue : Nat
  rafRequests : Nat
  updatePasses : Nat

/-- The arrow function passed to `requestAnimationFrame` in `onScroll`. -/
def frameCallback (p : Page) : Page :=
  let p := handleNavScroll p
  let p := handleFadeAnimations p
  let p := handleTransformAnimations p
  let p := handleScrollPinning p
  let p := handleVisualItems p
  { p with state := { p.state with ticking := false } }

/-- `onScroll()`. -/
def onScroll (r : Runtime) : Runtime :=
  let p := r.page
  let p := { p with
    state := { p.state with scrollY := jsOr p.window.scrollY p.window.pageYOffset } }
  if !p.state.ticking then
    { page := { p with state := { p.state with ticking := true } }
      rafQueue := r.rafQueue + 1
      rafRequests := r.rafRequests + 1
      updatePasses := r.updatePasses }
  else { r with page := p }

/-- The host renders a frame: every queued callback runs once and the queue is
emptied. -/
def runFrame (r : Runtime) : Runtime :=
  { page := Nat.iterate frameCallback r.rafQueue r.page
    rafQueue := 0
    rafRequests := r.rafRequests
    updatePasses := r.updatePasses + r.rafQueue }

/-- The user scrolls to offset `y` and the listener calls `onScroll`. -/
def scrollEvent (y : ℚ) (r : Runtime) : Runtime :=
  onScroll { r with page := { r.page with window := { r.page.window with scrollY := y } } }

/-- The resize listener: the window takes its new size, then `onScroll()` and
the close of the mobile nav on a desktop width. -/
def resizeEvent (innerWidth innerHeight : ℚ) (r : Runtime) : Runtime :=
  let r := onScroll { r with page := { r.page with
    window := { r.page.window with innerWidth := innerWidth, innerHeight := innerHeight } } }
  if r.page.window.innerWidth > 768 && r.page.state.navOpen then
    { r with page := toggleNav r.page }
  else r

/-- What can happen to the running page. -/
inductive Event where
  | scroll (y : ℚ)
  | resize (innerWidth innerHeight : ℚ)
  | click
  | frame

/-- One event. -/
def step (r : Runtime) : Event → Runtime
  | Event.scroll y => scrollEvent y r
  | Event.resize iw ih => resizeEvent iw ih r
  | Event.click => { r with page := toggleNav r.page }
  | Event.frame => runFrame r

/-- A sequence of events, oldest first. -/
def run (r : Runtime) (es : List Event) : Runtime := es.foldl step r

/-- The coordinator invariant: at most one callback is queued, and `ticking` is
true exactly when one is. -/
def coordinated (r : Runtime) : Prop :=
  r.rafQueue ≤ 1 ∧ (r.page.state.ticking = true ↔ r.rafQueue = 1)

instance (r : Runtime) : Decidable (coordinated r) := by
  unfold coordinated
  infer_instance

/-- Whether the body scroll lock is held. -/
def scrollLocked (p : Page) : Bool := decide (p.bodyOverflow = "hidden")

/-- The `revealed` flag of a tracked element: it carries the class `visible`. -/
def revealed (e : Element) : Bool := classListContains e.classList "visible"

/-- Successive runs of `handleFadeAnimations`, one per viewport state. -/
def fadeRuns (p : Page) (ws : List Window) : Page :=
  ws.foldl (fun q w => handleFadeAnimations { q with window := w }) p

/-- Successive runs of `handleTransformAnimations`, one per viewport state. -/
def transformRuns (p : Page) (ws : List Window) : Page :=
  ws.foldl (fun q w => handleTransformAnimations { q with window := w }) p

/-- The page once the script is loaded and before any interaction: the module
state is the `state` literal and nothing has been marked yet. -/
def initialPage (reducedMotion : Bool) (w : Window) : Page :=
  { reducedMotion := reducedMotion
    state := state
    window := w
    nav := ["nav"]
    navLinks := ["nav-links"]
    ariaExpanded := some "false"
    bodyOverflow := ""
    scrollSections := []
    fadeElements := []
    transformElements := []
    visualItems := []
    darkSection := none }

/-! ## Concrete inputs used to exercise the statements -/

/-- A viewport 800 pixels high at scroll offset `y`. -/
def windowAt (y : ℚ) : Window :=
  { scrollY := y, innerHeight := 800, innerWidth := 1280, clientHeight := 800 }

/-- An element 400 pixels high whose top edge is 1000 pixels into the document. -/
def sampleElement : Element := { docTop := 1000, height := 400, classList := [] }

/-- A pinnable section 2000 pixels high at the very top of the document. -/
def sampleSection : Section :=
  { docTop := 0, height := 2000, position := "", top := "",
    innerContent := some { transform := Transform.empty } }

/-- A pinnable section 500 pixels high, shorter than the 800 pixel viewport. -/
def shortSection : Section :=
  { docTop := 300, height := 500, position := "", top := "",
    innerContent := some { transform := Transform.empty } }

/-- The loaded page with one pinnable section, at scroll offset `y`. -/
def pinPage (reducedMotion : Bool) (y : ℚ) (s : Section) : Page :=
  { initialPage reducedMotion (windowAt y) with scrollSections := [s] }

/-- The runtime right after load, before any callback was requested. -/
def idleRuntime (p : Page) : Runtime :=
  { page := p, rafQueue := 0, rafRequests := 0, updatePasses := 0 }

/-! ## Geometry utilities -/

theorem jsOr_self (a : ℚ) : jsOr a a = a := by
  unfold jsOr; split <;> rfl

theorem jsOr_of_pos {a : ℚ} (b : ℚ) (h : 0 < a) : jsOr a b = a := by
  unfold jsOr; rw [if_pos (ne_of_gt h)]

theorem getScrollProgress_eq_clamp (w : Window) (element : Element)
    (hwh : 0 < w.innerHeight) (hh : 0 ≤ element.height) :
    getScrollProgress w element =
      max 0 (min 1 ((w.innerHeight - (element.docTop - w.scrollY)) /
        (w.innerHeight + element.height))) := by
  have htot : 0 < w.innerHeight + element.height := by linarith
  unfold getScrollProgress getBoundingClientRect
  simp only
  split_ifs with h1 h2
  · have hneg : (w.innerHeight - (element.docTop - w.scrollY)) /
        (w.innerHeight + element.height) ≤ 0 :=
      div_nonpos_of_nonpos_of_nonneg (by linarith) htot.le
    rw [max_eq_left]
    exact le_trans (min_le_right _ _) hneg
  · have hone : 1 ≤ (w.innerHeight - (element.docTop - w.scrollY)) /
        (w.innerHeight + element.height) := by
      rw [le_div_iff₀ htot]; linarith
    rw [min_eq_left hone, max_eq_right zero_le_one]
  · rfl

/-- C1: for a viewport height `wh > 0` and an element of height `h ≥ 0` whose
top edge is at `t` in the viewport, `getScrollProgress` returns 0 when `t > wh`,
1 when `t + h < 0`, and otherwise `(wh - t) / (wh + h)` clamped to `[0, 1]`; the
result always lies in `[0, 1]` and the divisor `wh + h` is never zero. -/
theorem getScrollProgress_contract (w : Window) (element : Element)
    (hwh : 0 < w.innerHeight) (hh : 0 ≤ element.height) :
    (element.docTop - w.scrollY > w.innerHeight → getScrollProgress w element = 0) ∧
    ((element.docTop - w.scrollY) + element.height < 0 → getScrollProgress w element = 1) ∧
    (¬ element.docTop - w.scrollY > w.innerHeight →
      ¬ (element.docTop - w.scrollY) + element.height < 0 →
      getScrollProgress w element =
        max 0 (min 1 ((w.innerHeight - (element.docTop - w.scrollY)) /
          (w.innerHeight + element.height)))) ∧
    0 ≤ getScrollProgress w element ∧ getScrollProgress w element ≤ 1 ∧
    w.innerHeight + element.height ≠ 0 := by
  refine ⟨?_, ?_, ?_, ?_, ?_, ?_⟩
  · intro h
    unfold getScrollProgress getBoundingClientRect
    simp only
    rw [if_pos h]
  · intro h
    have h1 : ¬ element.docTop - w.scrollY > w.innerHeight := by
      intro h'; linarith
    unfold getScrollProgress getBoundingClientRect
    simp only
    rw [if_neg h1, if_pos h]
  · intro _ _
    exact getScrollProgress_eq_clamp w element hwh hh
  · rw [getScrollProgress_eq_clamp w element hwh hh]
    exact le_max_left _ _
  · rw [getScrollProgress_eq_clamp w element hwh hh]
    exact max_le zero_le_one (min_le_left _ _)
  · have : 0 < w.innerHeight + element.height := by linarith
    exact ne_of_gt this

theorem getScrollProgress_contract_witness :
    getScrollProgress (windowAt 600) sampleElement = 1 / 3 ∧
    0 ≤ getScrollProgress (windowAt 600) sampleElement ∧
    getScrollProgress (windowAt 600) sampleElement ≤ 1 := by
  have h := getScrollProgress_contract (windowAt 600) sampleElement
    (by norm_num [windowAt]) (by norm_num [sampleElement])
  refine ⟨?_, h.2.2.2.1, h.2.2.2.2.1⟩
  rw [h.2.2.1 (by norm_num [windowAt, sampleElement])
    (by norm_num [windowAt, sampleElement])]
  norm_num [windowAt, sampleElement]

/-- C2: for a fixed viewport height `wh > 0` and element height `h ≥ 0`,
`getScrollProgress` does not decrease as the element moves up (a top edge at
`t1 ≥ t2` gives a progress no larger than at `t2`), it is exactly 0 whenever the
top edge is at or below the viewport bottom, and exactly 1 whenever the bottom
edge is at or above the viewport top. -/
theorem getScrollProgress_monotone (w1 w2 : Window) (e1 e2 : Element)
    (hwh : 0 < w1.innerHeight) (hh : 0 ≤ e1.height)
    (hw : w2.innerHeight = w1.innerHeight) (he : e2.height = e1.height) :
    (e1.docTop - w1.scrollY ≥ e2.docTop - w2.scrollY →
      getScrollProgress w1 e1 ≤ getScrollProgress w2 e2) ∧
    (e1.docTop - w1.scrollY ≥ w1.innerHeight → getScrollProgress w1 e1 = 0) ∧
    ((e1.docTop - w1.scrollY) + e1.height ≤ 0 → getScrollProgress w1 e1 = 1) := by
  have htot : 0 < w1.innerHeight + e1.height := by linarith
  refine ⟨?_, ?_, ?_⟩
  · intro ht
    rw [getScrollProgress_eq_clamp w1 e1 hwh hh,
      getScrollProgress_eq_clamp w2 e2 (by rw [hw]; exact hwh) (by rw [he]; exact hh), hw, he]
    apply max_le_max le_rfl
    apply min_le_min le_rfl
    apply div_le_div_of_nonneg_right _ htot.le
    linarith
  · intro ht
    rw [getScrollProgress_eq_clamp w1 e1 hwh hh]
    have hneg : (w1.innerHeight - (e1.docTop - w1.scrollY)) /
        (w1.innerHeight + e1.height) ≤ 0 :=
      div_nonpos_of_nonpos_of_nonneg (by linarith) htot.le
    rw [max_eq_left]
    exact le_trans (min_le_right _ _) hneg
  · intro ht
    rw [getScrollProgress_eq_clamp w1 e1 hwh hh]
    have hone : 1 ≤ (w1.innerHeight - (e1.docTop - w1.scrollY)) /
        (w1.innerHeight + e1.height) := by
      rw [le_div_iff₀ htot]; linarith
    rw [min_eq_left hone, max_eq_right zero_le_one]

theorem getScrollProgress_monotone_witness :
    getScrollProgress (windowAt 600) sampleElement ≤
      getScrollProgress (windowAt 900) sampleElement ∧
    getScrollProgress (windowAt 200) sampleElement = 0 ∧
    getScrollProgress (windowAt 1400) sampleElement = 1 :=
  ⟨(getScrollProgress_monotone (windowAt 600) (windowAt 900) sampleElement sampleElement
      (by norm_num [windowAt]) (by norm_num [sampleElement]) rfl rfl).1
      (by norm_num [windowAt, sampleElement]),
   (getScrollProgress_monotone (windowAt 200) (windowAt 200) sampleElement sampleElement
      (by norm_num [windowAt]) (by norm_num [sampleElement]) rfl rfl).2.1
      (by norm_num [windowAt, sampleElement]),
   (getScrollProgress_monotone (windowAt 1400) (windowAt 1400) sampleElement sampleElement
      (by norm_num [windowAt]) (by norm_num [sampleElement]) rfl rfl).2.2
      (by norm_num [windowAt, sampleElement])⟩

/-- C8: for a viewport height `wh > 0`, `isInViewport(element, offset)` is true
exactly when the element's top edge `t` satisfies `-offset ≤ t ≤ wh + offset`;
with the offset omitted this is `0 ≤ t ≤ wh`; and the result is the same for
any other height of the element. -/
theorem isInViewport_iff (w : Window) (element : Element) (offset : ℚ)
    (hwh : 0 < w.innerHeight) :
    (isInViewport w element (some offset) = true ↔
      -offset ≤ element.docTop - w.scrollY ∧
        element.docTop - w.scrollY ≤ w.innerHeight + offset) ∧
    (isInViewport w element none = true ↔
      0 ≤ element.docTop - w.scrollY ∧ element.docTop - w.scrollY ≤ w.innerHeight) ∧
    (∀ height : ℚ,
      isInViewport w { element with height := height } (some offset) =
        isInViewport w element (some offset)) := by
  refine ⟨?_, ?_, ?_⟩
  · unfold isInViewport getBoundingClientRect
    simp [jsOr_of_pos _ hwh]
  · unfold isInViewport getBoundingClientRect
    simp [jsOr_of_pos _ hwh]
  · intro height
    unfold isInViewport getBoundingClientRect
    rfl

theorem isInViewport_iff_witness :
    isInViewport (windowAt 600) sampleElement (some 100) = true ∧
    isInViewport (windowAt 50) sampleElement (some 100) = false := by
  have h := isInViewport_iff (windowAt 600) sampleElement 100 (by norm_num [windowAt])
  have h' := isInViewport_iff (windowAt 50) sampleElement 100 (by norm_num [windowAt])
  refine ⟨h.1.2 (by norm_num [windowAt, sampleElement]), ?_⟩
  rw [Bool.eq_false_iff]
  intro hc
  have := h'.1.1 hc
  norm_num [windowAt, sampleElement] at this

/-! ## Class lists -/

theorem mem_classListAdd (cl : List String) (c d : String) :
    d ∈ classListAdd cl c ↔ d ∈ cl ∨ d = c := by
  unfold classListAdd
  split_ifs with h
  · constructor
    · intro hd; exact Or.inl hd
    · rintro (hd | rfl)
      · exact hd
      · exact h
  · simp

theorem mem_classListRemove (cl : List String) (c d : String) :
    d ∈ classListRemove cl c ↔ d ∈ cl ∧ d ≠ c := by
  unfold classListRemove
  simp

theorem mem_classListToggle_self (cl : List String) (c : String) :
    c ∈ classListToggle cl c ↔ c ∉ cl := by
  unfold classListToggle
  split_ifs with h
  · simp [mem_classListRemove, h]
  · simp [h]

theorem classListAdd_idem (cl : List String) (c : String) :
    classListAdd (classListAdd cl c) c = classListAdd cl c := by
  have h : c ∈ classListAdd cl c := (mem_classListAdd cl c c).2 (Or.inr rfl)
  generalize classListAdd cl c = cl2 at h ⊢
  unfold classListAdd
  rw [if_pos h]

/-! ## Navigation -/

theorem scrolled_mem_handleNavScroll (q : Page) :
    "scrolled" ∈ (handleNavScroll q).nav ↔ q.window.scrollY > 50 := by
  unfold handleNavScroll
  simp only [Window.pageYOffset, jsOr_self, config]
  split_ifs with h
  · simp [mem_classListAdd, h]
  · simp [mem_classListRemove, h]

/-- C9: after `handleNavScroll` the nav carries `scrolled` exactly when the
scroll offset is strictly greater than 50, whatever its class list was before;
offset 0 and offset 50 give no marker and offset 51 gives the marker. -/
theorem handleNavScroll_scrolled_iff (p : Page) :
    ("scrolled" ∈ (handleNavScroll p).nav ↔ p.window.scrollY > 50) ∧
    "scrolled" ∉ (handleNavScroll { p with window := { p.window with scrollY := 0 } }).nav ∧
    "scrolled" ∉ (handleNavScroll { p with window := { p.window with scrollY := 50 } }).nav ∧
    "scrolled" ∈ (handleNavScroll { p with window := { p.window with scrollY := 51 } }).nav := by
  have key := scrolled_mem_handleNavScroll
  refine ⟨key p, ?_, ?_, ?_⟩
  · rw [key]; norm_num
  · rw [key]; norm_num
  · rw [key]; norm_num

theorem toggleNav_iterate_navOpen (p : Page) (k : Nat) :
    (Nat.iterate toggleNav k p).state.navOpen = (p.state.navOpen != decide (k % 2 = 1)) := by
  induction k generalizing p with
  | zero => simp
  | succ n ih =>
    rw [Function.iterate_succ_apply, ih]
    have h2 : (n + 1) % 2 = 1 ↔ ¬ n % 2 = 1 := by omega
    simp only [toggleNav, h2]
    cases p.state.navOpen <;> by_cases hn : n % 2 = 1 <;> simp [hn]

theorem toggleNav_iterate_active (p : Page) (k : Nat)
    (h : "active" ∈ p.navLinks ↔ p.state.navOpen = true) :
    "active" ∈ (Nat.iterate toggleNav k p).navLinks ↔
      (Nat.iterate toggleNav k p).state.navOpen = true := by
  induction k generalizing p with
  | zero => simpa using h
  | succ n ih =>
    rw [Function.iterate_succ_apply]
    apply ih
    simp only [toggleNav, mem_classListToggle_self, h]
    cases p.state.navOpen <;> simp

theorem toggleNav_scrollLocked (p : Page) :
    scrollLocked (toggleNav p) = (toggleNav p).state.navOpen := by
  unfold scrollLocked toggleNav
  cases p.state.navOpen <;> simp

/-- C10: every `toggleNav` call negates `state.navOpen`; afterwards the body
scroll lock is held exactly when `navOpen` is true and `aria-expanded` is the
string of `navOpen`.  From a closed state without the `active` class and without
the lock, after `k` calls the nav is open exactly when `k` is odd, the `active`
class is present exactly when `navOpen` is true, the lock is held exactly when
`navOpen` is true, and two further calls restore `navOpen`, the presence of
`active` and the lock. -/
theorem toggleNav_contract (p : Page) (k : Nat)
    (hclosed : p.state.navOpen = false) (hactive : "active" ∉ p.navLinks)
    (hlock : scrollLocked p = false) :
    (∀ q : Page, (toggleNav q).state.navOpen = !q.state.navOpen ∧
      (scrollLocked (toggleNav q) = true ↔ (toggleNav q).state.navOpen = true) ∧
      (toggleNav q).ariaExpanded = some (boolToString (toggleNav q).state.navOpen)) ∧
    ((Nat.iterate toggleNav k p).state.navOpen = true ↔ k % 2 = 1) ∧
    ("active" ∈ (Nat.iterate toggleNav k p).navLinks ↔
      (Nat.iterate toggleNav k p).state.navOpen = true) ∧
    (scrollLocked (Nat.iterate toggleNav k p) = true ↔
      (Nat.iterate toggleNav k p).state.navOpen = true) ∧
    (toggleNav (toggleNav (Nat.iterate toggleNav k p))).state.navOpen =
      (Nat.iterate toggleNav k p).state.navOpen ∧
    ("active" ∈ (toggleNav (toggleNav (Nat.iterate toggleNav k p))).navLinks ↔
      "active" ∈ (Nat.iterate toggleNav k p).navLinks) ∧
    scrollLocked (toggleNav (toggleNav (Nat.iterate toggleNav k p))) =
      scrollLocked (Nat.iterate toggleNav k p) := by
  have hact : "active" ∈ p.navLinks ↔ p.state.navOpen = true := by
    simp [hclosed, hactive]
  have hlk : scrollLocked (Nat.iterate toggleNav k p) =
      (Nat.iterate toggleNav k p).state.navOpen := by
    cases k with
    | zero => simp [hclosed, hlock]
    | succ n =>
      rw [Function.iterate_succ_apply']
      exact toggleNav_scrollLocked _
  refine ⟨?_, ?_, toggleNav_iterate_active p k hact, ?_, ?_, ?_, ?_⟩
  · intro q
    refine ⟨rfl, ?_, rfl⟩
    rw [toggleNav_scrollLocked]
  · rw [toggleNav_iterate_navOpen, hclosed]
    simp
  · rw [hlk]
  · simp [toggleNav]
  · simp only [toggleNav, mem_classListToggle_self, not_not]
  · rw [toggleNav_scrollLocked, hlk]
    simp [toggleNav]

theorem toggleNav_contract_witness :
    (Nat.iterate toggleNav 3 (initialPage false (windowAt 0))).state.navOpen = true ∧
    "active" ∈ (Nat.iterate toggleNav 3 (initialPage false (windowAt 0))).navLinks ∧
    scrollLocked (Nat.iterate toggleNav 3 (initialPage false (windowAt 0))) = true := by
  have h := toggleNav_contract (initialPage false (windowAt 0)) 3 rfl
    (by simp [initialPage]) (by simp [initialPage, scrollLocked])
  have hopen := h.2.1.2 (by norm_num)
  exact ⟨hopen, h.2.2.1.2 hopen, h.2.2.2.1.2 hopen⟩

/-! ## Reveal animations -/

theorem isInViewport_addClass (w : Window) (e : Element) (c : String) (o : Option ℚ) :
    isInViewport w (e.addClass c) o = isInViewport w e o := rfl

theorem revealed_revealElement (p : Page) (e : Element) :
    revealed (revealElement p e) =
      (revealed e || isInViewport p.window e (some 100)) := by
  unfold revealElement
  simp only [config]
  by_cases hv : isInViewport p.window e (some 100) = true
  · rw [if_pos hv, hv, Bool.or_true]
    simp [revealed, classListContains, Element.addClass, mem_classListAdd]
  · rw [if_neg hv]
    simp [hv]

theorem revealElement_idem (q p : Page) (e : Element)
    (hw : q.window = p.window) (hr : q.reducedMotion = p.reducedMotion) :
    revealElement q (revealElement p e) = revealElement p e := by
  unfold revealElement
  rw [hw, hr]
  by_cases hv : isInViewport p.window e (some (config p.reducedMotion).fadeInOffset) = true
  · rw [if_pos hv, isInViewport_addClass, if_pos hv]
    simp [Element.addClass, classListAdd_idem]
  · rw [if_neg hv, if_neg hv]

theorem handleFadeAnimations_flags (p : Page) (hrm : p.reducedMotion = false) :
    (handleFadeAnimations p).fadeElements.map revealed =
      p.fadeElements.map (fun e => revealed e || isInViewport p.window e (some 100)) := by
  simp [handleFadeAnimations, config, hrm, revealed_revealElement]

theorem handleTransformAnimations_flags (p : Page) (hrm : p.reducedMotion = false) :
    (handleTransformAnimations p).transformElements.map revealed =
      p.transformElements.map
        (fun e => revealed e || isInViewport p.window e (some 100)) := by
  simp [handleTransformAnimations, config, hrm, revealed_revealElement]

theorem flag_stays (l : List Element) (f : Element → Bool) (i : Nat)
    (h : (l.map revealed)[i]? = some true) :
    (l.map (fun e => revealed e || f e))[i]? = some true := by
  rw [List.getElem?_map] at h ⊢
  cases hl : l[i]? with
  | none => rw [hl] at h; simp at h
  | some e =>
    rw [hl] at h
    simp only [Option.map_some', Option.some.injEq] at h ⊢
    rw [h, Bool.true_or]

theorem fadeRuns_monotone (ws : List Window) (p : Page) (hrm : p.reducedMotion = false)
    (i : Nat) (h : (p.fadeElements.map revealed)[i]? = some true) :
    ((fadeRuns p ws).fadeElements.map revealed)[i]? = some true := by
  induction ws generalizing p with
  | nil => exact h
  | cons w ws ih =>
    have hrm1 : ({ p with window := w } : Page).reducedMotion = false := hrm
    have hrm2 : (handleFadeAnimations { p with window := w }).reducedMotion = false := by
      simp [handleFadeAnimations, config, hrm]
    unfold fadeRuns
    rw [List.foldl_cons]
    apply ih _ hrm2
    rw [handleFadeAnimations_flags _ hrm1]
    exact flag_stays _ _ i h

theorem transformRuns_monotone (ws : List Window) (p : Page)
    (hrm : p.reducedMotion = false)
    (i : Nat) (h : (p.transformElements.map revealed)[i]? = some true) :
    ((transformRuns p ws).transformElements.map revealed)[i]? = some true := by
  induction ws generalizing p with
  | nil => exact h
  | cons w ws ih =>
    have hrm1 : ({ p with window := w } : Page).reducedMotion = false := hrm
    have hrm2 : (handleTransformAnimations { p with window := w }).reducedMotion = false := by
      simp [handleTransformAnimations, config, hrm]
    unfold transformRuns
    rw [List.foldl_cons]
    apply ih _ hrm2
    rw [handleTransformAnimations_flags _ hrm1]
    exact flag_stays _ _ i h

/-- C7: with reduced motion off, one run of `handleFadeAnimations` (and of
`handleTransformAnimations`) sets the revealed flag of every tracked element to
its previous value OR `isInViewport(element, 100)`.  A revealed element stays
revealed through any number of runs under any viewport states, and a second run
under the same viewport state changes nothing. -/
theorem reveal_monotone_idempotent (p : Page) (hrm : p.reducedMotion = false) :
    ((handleFadeAnimations p).fadeElements.map revealed =
      p.fadeElements.map (fun e => revealed e || isInViewport p.window e (some 100))) ∧
    ((handleTransformAnimations p).transformElements.map revealed =
      p.transformElements.map
        (fun e => revealed e || isInViewport p.window e (some 100))) ∧
    (∀ (ws : List Window) (i : Nat), (p.fadeElements.map revealed)[i]? = some true →
      ((fadeRuns p ws).fadeElements.map revealed)[i]? = some true) ∧
    (∀ (ws : List Window) (i : Nat), (p.transformElements.map revealed)[i]? = some true →
      ((transformRuns p ws).transformElements.map revealed)[i]? = some true) ∧
    handleFadeAnimations (handleFadeAnimations p) = handleFadeAnimations p ∧
    handleTransformAnimations (handleTransformAnimations p) =
      handleTransformAnimations p := by
  refine ⟨handleFadeAnimations_flags p hrm, handleTransformAnimations_flags p hrm,
    fun ws i h => fadeRuns_monotone ws p hrm i h,
    fun ws i h => transformRuns_monotone ws p hrm i h, ?_, ?_⟩
  · simp only [handleFadeAnimations, config, hrm, Bool.false_eq_true, if_false,
      List.map_map]
    congr 1
    apply List.map_congr_left
    intro e _
    exact revealElement_idem _ p e rfl hrm.symm
  · simp only [handleTransformAnimations, config, hrm, Bool.false_eq_true, if_false,
      List.map_map]
    congr 1
    apply List.map_congr_left
    intro e _
    exact revealElement_idem _ p e rfl hrm.symm

theorem reveal_monotone_idempotent_witness :
    (handleFadeAnimations { initialPage false (windowAt 600) with
        fadeElements := [sampleElement] }).fadeElements.map revealed = [true] ∧
    ((fadeRuns (handleFadeAnimations { initialPage false (windowAt 600) with
        fadeElements := [sampleElement] }) [windowAt 0, windowAt 5000]).fadeElements.map
      revealed)[0]? = some true := by
  have h := reveal_monotone_idempotent
    { initialPage false (windowAt 600) with fadeElements := [sampleElement] } rfl
  have h2 := reveal_monotone_idempotent
    (handleFadeAnimations { initialPage false (windowAt 600) with
      fadeElements := [sampleElement] }) rfl
  have hflag : (handleFadeAnimations { initialPage false (windowAt 600) with
      fadeElements := [sampleElement] }).fadeElements.map revealed = [true] := by
    rw [h.1]
    simp [initialPage, sampleElement, windowAt, isInViewport, getBoundingClientRect, jsOr]
    norm_num
  refine ⟨hflag, h2.2.2.1 [windowAt 0, windowAt 5000] 0 ?_⟩
  rw [hflag]
  rfl

/-! ## Section pinning -/

theorem isPinned_iff (w : Window) (s : Section) :
    isPinned w s = true ↔
      s.docTop - w.scrollY ≤ 0 ∧ w.innerHeight < s.docTop - w.scrollY + s.height := by
  unfold isPinned getBoundingClientRect DOMRect.bottom
  simp

theorem scrollRange_eq (w : Window) (s : Section) :
    scrollRange w s = s.height - w.innerHeight := rfl

theorem scrolledInSection_eq (w : Window) (s : Section) :
    scrolledInSection w s = w.scrollY - s.docTop + w.innerHeight := by
  unfold scrolledInSection getBoundingClientRect
  simp only
  ring

theorem scrollRange_pos_of_isPinned (w : Window) (s : Section)
    (h : isPinned w s = true) : 0 < scrollRange w s := by
  rw [isPinned_iff] at h
  rw [scrollRange_eq]
  linarith [h.1, h.2]

theorem handleScrollPinning_sections (p : Page) (hrm : p.reducedMotion = false) :
    (handleScrollPinning p).scrollSections = p.scrollSections.map (pinSection p.window) := by
  simp [handleScrollPinning, config, hrm]

theorem pinSection_of_isPinned (w : Window) (s : Section) (h : isPinned w s = true) :
    pinSection w s =
      { s with
        position := "sticky"
        top := "0"
        innerContent := s.innerContent.map fun innerContent =>
          { innerContent with transform := Transform.translateY (pinProgress w s * 30) } } := by
  unfold pinSection
  rw [if_pos h]
  simp only [if_pos (scrollRange_pos_of_isPinned w s h), parallaxOffset]

theorem pinProgress_sample_zero : pinProgress (windowAt 0) sampleSection = 2 / 3 := by
  unfold pinProgress
  rw [scrolledInSection_eq, scrollRange_eq]
  norm_num [windowAt, sampleSection]

theorem pinProgress_sample_600 : pinProgress (windowAt 600) sampleSection = 1 := by
  unfold pinProgress
  rw [scrolledInSection_eq, scrollRange_eq]
  norm_num [windowAt, sampleSection]

theorem isPinned_sample (y : ℚ) (h0 : 0 ≤ y) (h1 : y < 1200) :
    isPinned (windowAt y) sampleSection = true := by
  rw [isPinned_iff]
  constructor
  · simp only [windowAt, sampleSection]; linarith
  · simp only [windowAt, sampleSection]; linarith

/-- C3: the code at the scenario's inputs.  For the section at document top 0
of height 2000 in a viewport of height 800 the section is pinned at scroll 0 and
at scroll 600 with scrollRange 1200, but `handleScrollPinning` computes progress
2/3 and writes 20px at scroll 0, and computes progress 1 and writes 30px at
scroll 600, where the scenario has progress 0 with offset 0 and progress 0.5
with offset 15px.  The scenario's values are those of the scroll measured from
the start of the pin window, `(currentScroll - sectionTop) / scrollRange`. -/
theorem handleScrollPinning_scenario :
    isPinned (windowAt 0) sampleSection = true ∧
    scrollRange (windowAt 0) sampleSection = 1200 ∧
    pinProgress (windowAt 0) sampleSection = 2 / 3 ∧
    pinProgress (windowAt 0) sampleSection ≠ 0 ∧
    parallaxOffset (windowAt 0) sampleSection = 20 ∧
    (handleScrollPinning (pinPage false 0 sampleSection)).scrollSections =
      [{ sampleSection with
          position := "sticky", top := "0"
          innerContent := some { transform := Transform.translateY 20 } }] ∧
    isPinned (windowAt 600) sampleSection = true ∧
    scrollRange (windowAt 600) sampleSection = 1200 ∧
    pinProgress (windowAt 600) sampleSection = 1 ∧
    pinProgress (windowAt 600) sampleSection ≠ 1 / 2 ∧
    parallaxOffset (windowAt 600) sampleSection = 30 ∧
    (handleScrollPinning (pinPage false 600 sampleSection)).scrollSections =
      [{ sampleSection with
          position := "sticky", top := "0"
          innerContent := some { transform := Transform.translateY 30 } }] ∧
    ((windowAt 0).scrollY - sampleSection.docTop) / scrollRange (windowAt 0) sampleSection
      = 0 ∧
    ((windowAt 600).scrollY - sampleSection.docTop) /
      scrollRange (windowAt 600) sampleSection = 1 / 2 := by
  have hp0 : isPinned (windowAt 0) sampleSection = true :=
    isPinned_sample 0 le_rfl (by norm_num)
  have hp6 : isPinned (windowAt 600) sampleSection = true :=
    isPinned_sample 600 (by norm_num) (by norm_num)
  refine ⟨hp0, ?_, pinProgress_sample_zero, ?_, ?_, ?_, hp6, ?_, pinProgress_sample_600,
    ?_, ?_, ?_, ?_, ?_⟩
  · rw [scrollRange_eq]; norm_num [windowAt, sampleSection]
  · rw [pinProgress_sample_zero]; norm_num
  · rw [parallaxOffset, pinProgress_sample_zero]; norm_num
  · rw [handleScrollPinning_sections _ rfl]
    simp only [pinPage, initialPage, List.map_cons, List.map_nil]
    rw [pinSection_of_isPinned _ _ hp0, pinProgress_sample_zero]
    simp [sampleSection]
    norm_num
  · rw [scrollRange_eq]; norm_num [windowAt, sampleSection]
  · rw [pinProgress_sample_600]; norm_num
  · rw [parallaxOffset, pinProgress_sample_600]; norm_num
  · rw [handleScrollPinning_sections _ rfl]
    simp only [pinPage, initialPage, List.map_cons, List.map_nil]
    rw [pinSection_of_isPinned _ _ hp6, pinProgress_sample_600]
    simp [sampleSection]
  · rw [scrollRange_eq]; norm_num [windowAt, sampleSection]
  · rw [scrollRange_eq]; norm_num [windowAt, sampleSection]

theorem pinProgress_lower (w : Window) (s : Section) (hwh : 0 < w.innerHeight)
    (h : isPinned w s = true) :
    min 1 (w.innerHeight / (s.height - w.innerHeight)) ≤ pinProgress w s ∧
    0 < pinProgress w s ∧ pinProgress w s ≤ 1 := by
  have hr : 0 < s.height - w.innerHeight := by
    have := scrollRange_pos_of_isPinned w s h
    rwa [scrollRange_eq] at this
  rw [isPinned_iff] at h
  have hratio : w.innerHeight / (s.height - w.innerHeight) ≤
      scrolledInSection w s / scrollRange w s := by
    rw [scrolledInSection_eq, scrollRange_eq]
    apply div_le_div_of_nonneg_right _ hr.le
    linarith [h.1]
  have hpos : 0 < min 1 (w.innerHeight / (s.height - w.innerHeight)) :=
    lt_min one_pos (div_pos hwh hr)
  have hlow : min 1 (w.innerHeight / (s.height - w.innerHeight)) ≤ pinProgress w s := by
    unfold pinProgress
    exact le_trans (min_le_min le_rfl hratio) (le_max_right _ _)
  refine ⟨hlow, lt_of_lt_of_le hpos hlow, ?_⟩
  unfold pinProgress
  exact max_le zero_le_one (min_le_left _ _)

theorem pinProgress_saturated (w : Window) (s : Section) (hwh : 0 < w.innerHeight)
    (h2 : s.height ≤ 2 * w.innerHeight) (h : isPinned w s = true) :
    pinProgress w s = 1 := by
  have hr : 0 < s.height - w.innerHeight := by
    have := scrollRange_pos_of_isPinned w s h
    rwa [scrollRange_eq] at this
  have hlow := (pinProgress_lower w s hwh h).1
  have hone : 1 ≤ w.innerHeight / (s.height - w.innerHeight) := by
    rw [le_div_iff₀ hr]; linarith
  rw [min_eq_left hone] at hlow
  exact le_antisymm (pinProgress_lower w s hwh h).2.2 hlow

/-- C4: the code on sections taller than the viewport.  For the section at
document top 0 of height 2000 in a viewport of height 800 there is no scroll
offset at which the section is pinned with progress 0, so the lower part of the
progress range is never produced.  For the same section with height 1600 the
progress is 1 at every scroll offset at which it is pinned, and
`handleScrollPinning` writes the same 30px at scroll 0 and at scroll 400. -/
theorem pinProgress_full_range_refuted :
    (¬ ∃ y : ℚ, 0 ≤ y ∧ isPinned (windowAt y) sampleSection = true ∧
      pinProgress (windowAt y) sampleSection = 0) ∧
    (¬ ∃ y : ℚ, isPinned (windowAt y) { sampleSection with height := 1600 } = true ∧
      pinProgress (windowAt y) { sampleSection with height := 1600 } ≠ 1) ∧
    isPinned (windowAt 0) { sampleSection with height := 1600 } = true ∧
    isPinned (windowAt 400) { sampleSection with height := 1600 } = true ∧
    (handleScrollPinning
        (pinPage false 0 { sampleSection with height := 1600 })).scrollSections =
      [{ sampleSection with
          height := 1600, position := "sticky", top := "0"
          innerContent := some { transform := Transform.translateY 30 } }] ∧
    (handleScrollPinning
        (pinPage false 400 { sampleSection with height := 1600 })).scrollSections =
      [{ sampleSection with
          height := 1600, position := "sticky", top := "0"
          innerContent := some { transform := Transform.translateY 30 } }] := by
  have hwh : ∀ y : ℚ, 0 < (windowAt y).innerHeight := fun y => by norm_num [windowAt]
  have hsat : ∀ y : ℚ, isPinned (windowAt y) { sampleSection with height := 1600 } = true →
      pinProgress (windowAt y) { sampleSection with height := 1600 } = 1 := fun y hp =>
    pinProgress_saturated _ _ (hwh y) (by norm_num [windowAt, sampleSection]) hp
  have hp0 : isPinned (windowAt 0) { sampleSection with height := 1600 } = true := by
    rw [isPinned_iff]; norm_num [windowAt, sampleSection]
  have hp4 : isPinned (windowAt 400) { sampleSection with height := 1600 } = true := by
    rw [isPinned_iff]; norm_num [windowAt, sampleSection]
  refine ⟨?_, ?_, hp0, hp4, ?_, ?_⟩
  · rintro ⟨y, _, hp, h0⟩
    have := (pinProgress_lower (windowAt y) sampleSection (hwh y) hp).2.1
    rw [h0] at this
    exact lt_irrefl _ this
  · rintro ⟨y, hp, hne⟩
    exact hne (hsat y hp)
  · rw [handleScrollPinning_sections _ rfl]
    simp only [pinPage, initialPage, List.map_cons, List.map_nil]
    rw [pinSection_of_isPinned _ _ hp0, hsat 0 hp0]
    simp [sampleSection]
  · rw [handleScrollPinning_sections _ rfl]
    simp only [pinPage, initialPage, List.map_cons, List.map_nil]
    rw [pinSection_of_isPinned _ _ hp4, hsat 400 hp4]
    simp [sampleSection]

/-- C5, as stated, fails: with reduced motion on, `handleScrollPinning` returns
before looking at any section, so a section shorter than the viewport keeps its
positioning and is not set to relative. -/
theorem handleScrollPinning_short_refuted :
    shortSection.height ≤ (windowAt 0).innerHeight ∧
    (handleScrollPinning (pinPage true 0 shortSection)).scrollSections = [shortSection] ∧
    (handleScrollPinning (pinPage true 0 shortSection)).scrollSections.map Section.position
      ≠ ["relative"] := by
  refine ⟨by norm_num [shortSection, windowAt], rfl, ?_⟩
  simp [handleScrollPinning, config, pinPage, initialPage, shortSection]

/-- C5, amended: with reduced motion off, for every section whose height is at
most the viewport height and for every scroll offset, `handleScrollPinning`
does not take the pinned branch: the section is set to relative positioning and
its inner content's transform is cleared.  Whenever the pinned branch is taken,
`scrollRange` is strictly positive, so the progress division is by a positive
number. -/
theorem handleScrollPinning_short_section (pg : Page) (s : Section)
    (hrm : pg.reducedMotion = false) (hshort : s.height ≤ pg.window.innerHeight) :
    isPinned pg.window s = false ∧
    (handleScrollPinning { pg with scrollSections := [s] }).scrollSections =
      [{ s with
          position := "relative"
          innerContent := s.innerContent.map fun innerContent =>
            { innerContent with transform := Transform.empty } }] ∧
    (∀ (w : Window) (t : Section), isPinned w t = true →
      0 < scrollRange w t ∧ scrollRange w t = t.height - w.innerHeight) := by
  have hnp : isPinned pg.window s = false := by
    rw [Bool.eq_false_iff]
    intro hp
    rw [isPinned_iff] at hp
    linarith [hp.1, hp.2]
  refine ⟨hnp, ?_, fun w t hp => ⟨scrollRange_pos_of_isPinned w t hp, rfl⟩⟩
  simp only [handleScrollPinning, config, hrm, Bool.false_eq_true, if_false,
    List.map_cons, List.map_nil]
  unfold pinSection
  rw [hnp]
  simp

theorem handleScrollPinning_short_section_witness :
    isPinned (windowAt 400) shortSection = false ∧
    (handleScrollPinning (pinPage false 400 shortSection)).scrollSections =
      [{ shortSection with
          position := "relative"
          innerContent := some { transform := Transform.empty } }] := by
  have h := handleScrollPinning_short_section (pinPage false 400 shortSection) shortSection
    rfl (by norm_num [pinPage, initialPage, windowAt, shortSection])
  exact ⟨h.1, h.2.1⟩

/-! ## Frame coordinator -/

theorem frameCallback_ticking (p : Page) : (frameCallback p).state.ticking = false := rfl

theorem handleFadeAnimations_nav (p : Page) : (handleFadeAnimations p).nav = p.nav := by
  unfold handleFadeAnimations; split <;> rfl

theorem handleTransformAnimations_nav (p : Page) :
    (handleTransformAnimations p).nav = p.nav := by
  unfold handleTransformAnimations; split <;> rfl

theorem handleScrollPinning_nav (p : Page) : (handleScrollPinning p).nav = p.nav := by
  unfold handleScrollPinning; split <;> rfl

theorem handleVisualItems_nav (p : Page) : (handleVisualItems p).nav = p.nav := by
  unfold handleVisualItems
  split
  · rfl
  · split
    · rfl
    · split <;> rfl

theorem frameCallback_nav (p : Page) : (frameCallback p).nav = (handleNavScroll p).nav := by
  unfold frameCallback
  simp only [handleVisualItems_nav, handleScrollPinning_nav, handleTransformAnimations_nav,
    handleFadeAnimations_nav]

theorem onScroll_ticking (r : Runtime) : (onScroll r).page.state.ticking = true := by
  unfold onScroll
  cases h : r.page.state.ticking <;> simp [h]

theorem onScroll_scrollY (r : Runtime) :
    (onScroll r).page.state.scrollY = r.page.window.scrollY ∧
    (onScroll r).page.window = r.page.window := by
  unfold onScroll
  cases h : r.page.state.ticking <;> simp [h, Window.pageYOffset, jsOr_self]

theorem onScroll_idle (r : Runtime) (h : r.page.state.ticking = false) :
    (onScroll r).rafQueue = r.rafQueue + 1 ∧ (onScroll r).rafRequests = r.rafRequests + 1 ∧
    (onScroll r).updatePasses = r.updatePasses := by
  unfold onScroll
  simp [h]

theorem onScroll_scheduled (r : Runtime) (h : r.page.state.ticking = true) :
    (onScroll r).rafQueue = r.rafQueue ∧ (onScroll r).rafRequests = r.rafRequests ∧
    (onScroll r).updatePasses = r.updatePasses := by
  unfold onScroll
  simp [h]

theorem scrollEvent_scheduled (y : ℚ) (r : Runtime) (h : r.page.state.ticking = true) :
    (scrollEvent y r).rafQueue = r.rafQueue ∧ (scrollEvent y r).rafRequests = r.rafRequests ∧
    (scrollEvent y r).updatePasses = r.updatePasses :=
  onScroll_scheduled _ h

theorem run_scroll_scheduled (ys : List ℚ) (r : Runtime) (h : r.page.state.ticking = true) :
    (run r (ys.map Event.scroll)).page.state.ticking = true ∧
    (run r (ys.map Event.scroll)).rafQueue = r.rafQueue ∧
    (run r (ys.map Event.scroll)).rafRequests = r.rafRequests ∧
    (run r (ys.map Event.scroll)).updatePasses = r.updatePasses := by
  induction ys generalizing r with
  | nil => exact ⟨h, rfl, rfl, rfl⟩
  | cons y ys ih =>
    have hs := scrollEvent_scheduled y r h
    have ht : (scrollEvent y r).page.state.ticking = true := onScroll_ticking _
    have := ih (scrollEvent y r) ht
    simp only [List.map_cons, run, List.foldl_cons, step] at this ⊢
    rw [hs.1, hs.2.1, hs.2.2] at this
    exact this

theorem run_snoc (r : Runtime) (es : List Event) (e : Event) :
    run r (es ++ [e]) = step (run r es) e := by
  simp [run, List.foldl_append]

theorem coordinated_onScroll (r : Runtime) (h : coordinated r) : coordinated (onScroll r) := by
  obtain ⟨hle, hiff⟩ := h
  refine ⟨?_, ?_⟩
  · cases ht : r.page.state.ticking
    · have : r.rafQueue ≠ 1 := fun h1 => by
        have := hiff.2 h1; rw [ht] at this; exact Bool.noConfusion this
      rw [(onScroll_idle r ht).1]; omega
    · rw [(onScroll_scheduled r ht).1]; exact hle
  · rw [onScroll_ticking]
    simp only [true_iff]
    cases ht : r.page.state.ticking
    · have : r.rafQueue ≠ 1 := fun h1 => by
        have := hiff.2 h1; rw [ht] at this; exact Bool.noConfusion this
      rw [(onScroll_idle r ht).1]; omega
    · rw [(onScroll_scheduled r ht).1]; exact hiff.1 ht

theorem coordinated_toggleNav (r : Runtime) (h : coordinated r) :
    coordinated { r with page := toggleNav r.page } := h

theorem coordinated_runFrame (r : Runtime) (h : coordinated r) : coordinated (runFrame r) := by
  obtain ⟨hle, hiff⟩ := h
  refine ⟨Nat.zero_le _, ?_⟩
  have hq : r.rafQueue = 0 ∨ r.rafQueue = 1 := by omega
  rcases hq with h0 | h1
  · have hnt : r.page.state.ticking = false := by
      cases ht : r.page.state.ticking
      · rfl
      · have := hiff.1 ht; omega
    simp [runFrame, h0, hnt]
  · simp [runFrame, h1, frameCallback_ticking]

theorem coordinated_step (r : Runtime) (e : Event) (h : coordinated r) :
    coordinated (step r e) := by
  cases e with
  | scroll y => exact coordinated_onScroll _ h
  | resize iw ih =>
    have h1 : coordinated (onScroll { r with page := { r.page with
        window := { r.page.window with innerWidth := iw, innerHeight := ih } } }) :=
      coordinated_onScroll _ h
    simp only [step, resizeEvent]
    split
    · exact coordinated_toggleNav _ h1
    · exact h1
  | click => exact coordinated_toggleNav _ h
  | frame => exact coordinated_runFrame _ h

theorem coordinated_run (es : List Event) (r : Runtime) (h : coordinated r) :
    coordinated (run r es) := by
  induction es generalizing r with
  | nil => exact h
  | cons e es ih => exact ih (step r e) (coordinated_step r e h)

/-- C6: starting idle (`ticking` false, nothing queued), after any burst of
`n ≥ 1` scroll events `requestAnimationFrame` has been called exactly once, one
callback is queued, no update pass has run, `ticking` is true and `state.scrollY`
is the offset of the last event; a further scroll event requests nothing; when
the frame fires exactly one update pass runs, on the page as the last event
left it, and the coordinator is idle again with an empty queue.  Along every
sequence of scroll, resize, click and frame events the queue never holds more
than one callback and `ticking` is true exactly when it holds one. -/
theorem onScroll_coalesces (r : Runtime) (ys : List ℚ) (y : ℚ)
    (hidle : r.page.state.ticking = false) (hq : r.rafQueue = 0) :
    (run r ((ys ++ [y]).map Event.scroll)).rafQueue = 1 ∧
    (run r ((ys ++ [y]).map Event.scroll)).rafRequests = r.rafRequests + 1 ∧
    (run r ((ys ++ [y]).map Event.scroll)).updatePasses = r.updatePasses ∧
    (run r ((ys ++ [y]).map Event.scroll)).page.state.ticking = true ∧
    (run r ((ys ++ [y]).map Event.scroll)).page.state.scrollY = y ∧
    (run r ((ys ++ [y]).map Event.scroll)).page.window.scrollY = y ∧
    (∀ z : ℚ, (scrollEvent z (run r ((ys ++ [y]).map Event.scroll))).rafRequests =
        r.rafRequests + 1 ∧
      (scrollEvent z (run r ((ys ++ [y]).map Event.scroll))).rafQueue = 1) ∧
    (runFrame (run r ((ys ++ [y]).map Event.scroll))).updatePasses = r.updatePasses + 1 ∧
    (runFrame (run r ((ys ++ [y]).map Event.scroll))).page =
      frameCallback (run r ((ys ++ [y]).map Event.scroll)).page ∧
    ("scrolled" ∈ (runFrame (run r ((ys ++ [y]).map Event.scroll))).page.nav ↔ y > 50) ∧
    (runFrame (run r ((ys ++ [y]).map Event.scroll))).page.state.ticking = false ∧
    (runFrame (run r ((ys ++ [y]).map Event.scroll))).rafQueue = 0 ∧
    (runFrame (run r ((ys ++ [y]).map Event.scroll))).rafRequests = r.rafRequests + 1 ∧
    (∀ es : List Event, (run r es).rafQueue ≤ 1 ∧
      ((run r es).page.state.ticking = true ↔ (run r es).rafQueue = 1)) := by
  have hcount : (run r ((ys ++ [y]).map Event.scroll)).page.state.ticking = true ∧
      (run r ((ys ++ [y]).map Event.scroll)).rafQueue = 1 ∧
      (run r ((ys ++ [y]).map Event.scroll)).rafRequests = r.rafRequests + 1 ∧
      (run r ((ys ++ [y]).map Event.scroll)).updatePasses = r.updatePasses := by
    have hfirst : ∀ (y0 : ℚ) (rest : List ℚ),
        (run r ((y0 :: rest).map Event.scroll)).page.state.ticking = true ∧
        (run r ((y0 :: rest).map Event.scroll)).rafQueue = 1 ∧
        (run r ((y0 :: rest).map Event.scroll)).rafRequests = r.rafRequests + 1 ∧
        (run r ((y0 :: rest).map Event.scroll)).updatePasses = r.updatePasses := by
      intro y0 rest
      have h1 : (scrollEvent y0 r).rafQueue = r.rafQueue + 1 ∧
          (scrollEvent y0 r).rafRequests = r.rafRequests + 1 ∧
          (scrollEvent y0 r).updatePasses = r.updatePasses := onScroll_idle _ hidle
      have ht : (scrollEvent y0 r).page.state.ticking = true := onScroll_ticking _
      have h2 := run_scroll_scheduled rest (scrollEvent y0 r) ht
      simp only [List.map_cons, run, List.foldl_cons, step] at h2 ⊢
      rw [h1.1, h1.2.1, h1.2.2, hq] at h2
      exact h2
    cases ys with
    | nil => exact hfirst y []
    | cons y0 rest => exact hfirst y0 (rest ++ [y])
  have hlast : run r ((ys ++ [y]).map Event.scroll) =
      scrollEvent y (run r (ys.map Event.scroll)) := by
    rw [List.map_append, List.map_singleton, run_snoc]
    rfl
  obtain ⟨hT, hQ, hR, hU⟩ := hcount
  have hsY : (run r ((ys ++ [y]).map Event.scroll)).page.state.scrollY = y ∧
      (run r ((ys ++ [y]).map Event.scroll)).page.window.scrollY = y := by
    rw [hlast]
    have := onScroll_scrollY { run r (ys.map Event.scroll) with
      page := { (run r (ys.map Event.scroll)).page with
        window := { (run r (ys.map Event.scroll)).page.window with scrollY := y } } }
    unfold scrollEvent
    rw [this.1, this.2]
    exact ⟨rfl, rfl⟩
  have hpage : (runFrame (run r ((ys ++ [y]).map Event.scroll))).page =
      frameCallback (run r ((ys ++ [y]).map Event.scroll)).page := by
    show Nat.iterate frameCallback (run r ((ys ++ [y]).map Event.scroll)).rafQueue _ = _
    rw [hQ]
    rfl
  have hinv0 : coordinated r := by
    refine ⟨by omega, ?_⟩
    rw [hidle, hq]
    simp
  refine ⟨hQ, hR, hU, hT, hsY.1, hsY.2, ?_, ?_, hpage, ?_, ?_, rfl, hR, ?_⟩
  · intro z
    have := scrollEvent_scheduled z _ hT
    rw [this.1, this.2.1]
    exact ⟨hR, hQ⟩
  · show (run r ((ys ++ [y]).map Event.scroll)).updatePasses +
      (run r ((ys ++ [y]).map Event.scroll)).rafQueue = _
    rw [hQ, hU]
  · rw [hpage, frameCallback_nav, (scrolled_mem_handleNavScroll _), hsY.2]
  · rw [hpage]; rfl
  · intro es
    exact coordinated_run es r hinv0

theorem onScroll_coalesces_witness :
    (run (idleRuntime (initialPage false (windowAt 0)))
      ([10, 20, 60].map Event.scroll)).rafRequests = 1 ∧
    (run (idleRuntime (initialPage false (windowAt 0)))
      ([10, 20, 60].map Event.scroll)).page.state.scrollY = 60 ∧
    (runFrame (run (idleRuntime (initialPage false (windowAt 0)))
      ([10, 20, 60].map Event.scroll))).updatePasses = 1 ∧
    "scrolled" ∈ (runFrame (run (idleRuntime (initialPage false (windowAt 0)))
      ([10, 20, 60].map Event.scroll))).page.nav := by
  have h := onScroll_coalesces (idleRuntime (initialPage false (windowAt 0))) [10, 20] 60
    rfl rfl
  exact ⟨h.2.1, h.2.2.2.2.1, h.2.2.2.2.2.2.2.1, h.2.2.2.2.2.2.2.2.2.1.2 (by norm_num)⟩

end ProductPage
